import Mathlib

/-!
Verification of the Heidi call-simulator conversation engines.

A shallow embedding of `src/server/src/services/callSimulator.js`
(the state-machine inbound and outbound conversation engines) together
with proofs about the safety, routing and completion behaviour that the
specification claims.

Conventions of the embedding:

* JavaScript strings are Lean `String`s; all matching helpers
  (`includes`, `startsWith`, `trim`, `toLowerCase`, `split`) are
  re-implemented over `List Char` so that every definition is
  executable and kernel-reducible.
* The generative/classification collaborator (`AIService`) is modelled
  as an oracle record passed to each turn: each AI call's outcome is a
  field (`Option String` for generated text, where `none` models a
  falsy/absent `response.text`; parsed-JSON records for the structured
  classification calls, where `none` models "no parseable JSON or a
  thrown error").
* Timestamps and the `metadata` object are omitted from the state: no
  claim mentions them and they never feed back into control flow.
* Fallible paths return `Except String _`; an uncaught JavaScript
  exception is modelled as `Except.error`.
-/

namespace Heidi

/-! ## String helpers (JS semantics) -/

/-- Whitespace for the purposes of `trim` / `\s`. -/
def isWS (c : Char) : Bool := c = ' ' || c = '\t' || c = '\n' || c = '\r'

/-- Test whether `needle` occurs as a contiguous sublist of `hay` (JS `String.includes`). -/
def listHasInfix (needle : List Char) : List Char → Bool
  | [] => needle.isEmpty
  | c :: t => needle.isPrefixOf (c :: t) || listHasInfix needle t

/-- JS `hay.includes(needle)`. -/
def sContains (hay needle : String) : Bool := listHasInfix needle.data hay.data

/-- JS `s.startsWith(p)`. -/
def sStartsWith (s p : String) : Bool := p.data.isPrefixOf s.data

/-- JS `s.toLowerCase()` (ASCII case folding, which is all this code base uses). -/
def lowerStr (s : String) : String := ⟨s.data.map Char.toLower⟩

/-- JS `s.trim()`. -/
def sTrim (s : String) : String :=
  ⟨((s.data.dropWhile isWS).reverse.dropWhile isWS).reverse⟩

/-- Digits to a natural number (the happy path of JS `Number` on "08" etc.). -/
def digitsToNat (l : List Char) : Nat :=
  l.foldl (fun a c => a * 10 + (c.toNat - 48)) 0

/-- Convert `"HH:MM"` to minutes, as `time.split(":").map(Number)` then `h*60+m`. -/
def timeToMinutes (t : String) : Nat :=
  let h := t.data.takeWhile (· ≠ ':')
  let rest := (t.data.dropWhile (· ≠ ':')).drop 1
  digitsToNat h * 60 + digitsToNat (rest.takeWhile (· ≠ ':'))

/-- JS `s.split(sep)` (keeps empty segments). -/
def splitOnChar (sep : Char) : List Char → List (List Char)
  | [] => [[]]
  | c :: t =>
    let r := splitOnChar sep t
    if c = sep then [] :: r
    else
      match r with
      | h :: t2 => (c :: h) :: t2
      | [] => [[c]]

/-- First space-separated word of a string (JS `s.split(" ")[0]`). -/
def firstWord (s : String) : String :=
  ⟨s.data.takeWhile (· ≠ ' ')⟩

/-- JS `x || null` applied to an optional string: collapses the empty string
(falsy in JS) to `none`. -/
def jsOrNull : Option String → Option String
  | some v => if v = "" then none else some v
  | none => none

/-! ## Clinic configuration (external, read-only input)

Only the parts the conversation engines read are modelled:
`operating_hours.schedule`, `staff_directory` with `booking_rules`,
`agent_persona.safety_enforcement.emergency_keywords` and
`call_classification.escalation_triggers.keywords`.  Optional JSON
fields are `Option _`; JS truthiness tests are made explicit at each
use site. -/

structure DaySchedule where
  is_open : Option Bool
  start : String
  «end» : String
deriving Repr, DecidableEq

structure BookingRules where
  accepts_new_patients : Option Bool := none
  requires_manual_approval : Option Bool := none
  specializations : List String := []
deriving Repr, DecidableEq

structure Staff where
  name : String
  role : Option String := none
  booking_rules : Option BookingRules := none
deriving Repr, DecidableEq

structure ClinicConfig where
  clinic_name : Option String := none
  /-- Source `operating_hours.schedule`, keyed by lowercase weekday name. -/
  schedule : List (String × DaySchedule) := []
  staff_directory : List Staff := []
  /-- Source `agent_persona.safety_enforcement.emergency_keywords` (`[]` when absent). -/
  emergency_keywords : List String := []
  /-- Source `call_classification.escalation_triggers.keywords` (`[]` when absent). -/
  escalation_keywords : List String := []
deriving Repr, DecidableEq

/-! ## State tags

The source keeps conversation states as string tags
(`INBOUND_STATES` / `OUTBOUND_STATES`); the embedding does the same. -/

namespace INBOUND_STATES
def GREETING := "greeting"
def SAFETY_SCAN := "safety_scan"
def IDENTIFY := "identify"
def TRIAGE := "triage"
def APPOINTMENT_FLOW := "appointment_flow"
def CLINICAL_FLOW := "clinical_flow"
def MESSAGE_FLOW := "message_flow"
def TRANSFER_FLOW := "transfer_flow"
def EMERGENCY_EXIT := "emergency_exit"
def SUCCESS_EXIT := "success_exit"
def CONFUSION_EXIT := "confusion_exit"
end INBOUND_STATES

namespace OUTBOUND_STATES
def OPENING := "opening"
def VERIFY_IDENTITY := "verify_identity"
def CHECK_SIDE_EFFECTS := "check_side_effects"
def CHECK_ADHERENCE := "check_adherence"
def PROBE_REASON := "probe_reason"
def CLOSING := "closing"
def ESCALATED := "escalated"
def COMPLETE := "complete"
end OUTBOUND_STATES

/-! ## Intent categories (`INTENT_CATEGORIES`) -/

namespace INTENT_CATEGORIES

def APPOINTMENT : List String :=
  ["book", "appointment", "schedule", "see doctor", "available", "slot",
   "opening"]

def CLINICAL : List String :=
  ["symptom", "pain", "sick", "rash", "headache", "fever", "cough", "hurt",
   "bleeding", "dizzy", "nausea", "vomit"]

def ADMIN : List String :=
  ["form", "results", "prescription", "referral", "letter", "document",
   "paperwork", "records", "test results"]

def TRANSFER : List String :=
  ["speak to someone", "talk to a person", "real person", "human",
   "receptionist", "staff", "manager"]

def EMERGENCY : List String :=
  ["chest pain", "chest ache", "ache in my chest", "pain in my chest",
   "pain in chest", "hurts in my chest", "can't breathe", "cannot breathe",
   "struggling to breathe", "hard to breathe", "difficulty breathing",
   "trouble breathing", "heart attack", "having a heart", "stroke",
   "having a stroke", "unconscious", "passed out", "severe bleeding",
   "bleeding heavily", "won't stop bleeding", "overdose", "took too many",
   "suicide", "kill myself", "want to die", "end my life", "emergency",
   "dying", "think i'm dying", "call ambulance", "call 000",
   "need ambulance"]

end INTENT_CATEGORIES

/-! ## SafetyScanner and the small pure classifiers -/

/-- Embeds `CallSimulator._detectEmergency`. -/
def _detectEmergency (message : String) (clinicConfig : ClinicConfig) : Bool :=
  let lowerMessage := lowerStr message
  let emergencyKeywords :=
    INTENT_CATEGORIES.EMERGENCY ++ clinicConfig.emergency_keywords
  emergencyKeywords.any fun keyword => sContains lowerMessage (lowerStr keyword)

/-- The hard-coded "talk/speak to doctor" phrase list in
`_detectTransferRequest`. -/
def doctorPatterns : List String :=
  ["talk to a doctor", "talk to doctor", "speak to a doctor",
   "speak to doctor", "want to talk to a doctor", "want to speak to a doctor",
   "see a doctor", "speak with a doctor", "talk with a doctor"]

/-- Embeds `CallSimulator._detectTransferRequest`.  Note: the configured
`escalation_triggers.keywords`, when non-empty, *replace* the built-in
`INTENT_CATEGORIES.TRANSFER` list (they are not unioned with it); the
`doctorPatterns` list is always checked first. -/
def _detectTransferRequest (message : String) (clinicConfig : ClinicConfig) : Bool :=
  let lowerMessage := lowerStr message
  let configuredTriggers := clinicConfig.escalation_keywords
  let allTriggers :=
    if configuredTriggers.length > 0 then configuredTriggers
    else INTENT_CATEGORIES.TRANSFER
  if doctorPatterns.any (fun pattern => sContains lowerMessage pattern) then
    true
  else
    allTriggers.any fun keyword => sContains lowerMessage (lowerStr keyword)

/-- Embeds `CallSimulator._isRefusal`. -/
def _isRefusal (message : String) : Bool :=
  let refusalPhrases :=
    ["don't want to", "won't give", "prefer not", "rather not", "skip that",
     "not comfortable", "just want to", "can we skip"]
  let lowerMessage := lowerStr message
  refusalPhrases.any fun phrase => sContains lowerMessage phrase

/-- Embeds `CallSimulator._classifyIntent`: first matching category in insertion
order (`APPOINTMENT`, `CLINICAL`, `ADMIN`, `TRANSFER`; `EMERGENCY` is
skipped), else `"unclear"`. -/
def _classifyIntent (message : String) : String :=
  let lowerMessage := lowerStr message
  let hit := fun (keywords : List String) =>
    keywords.any fun keyword => sContains lowerMessage (lowerStr keyword)
  if hit INTENT_CATEGORIES.APPOINTMENT then "appointment"
  else if hit INTENT_CATEGORIES.CLINICAL then "clinical"
  else if hit INTENT_CATEGORIES.ADMIN then "admin"
  else if hit INTENT_CATEGORIES.TRANSFER then "transfer"
  else "unclear"

/-- Embeds `CallSimulator._isDone`: exact or *prefix* match of the lowercased,
trimmed message against the closing-phrase list. -/
def _isDone (message : String) : Bool :=
  let donePhrases :=
    ["no", "that's all", "that's it", "nothing else", "i'm good", "all good",
     "nope", "no thanks", "that will be all", "goodbye", "bye", "thank you",
     "thanks"]
  let lowerMessage := sTrim (lowerStr message)
  donePhrases.any fun phrase =>
    lowerMessage = phrase || sStartsWith lowerMessage phrase

/-- Embeds `CallSimulator._isBusinessHours`: schedule lookup by lowercased day,
closed when the day is missing or `is_open` is not true, otherwise
minute-granularity inclusive-start / exclusive-end window test. -/
def _isBusinessHours (config : ClinicConfig) (day time : String) : Bool :=
  match config.schedule.lookup (lowerStr day) with
  | none => false
  | some schedule =>
    if schedule.is_open ≠ some true then false
    else
      let currentMinutes := timeToMinutes time
      let startMinutes := timeToMinutes schedule.start
      let endMinutes := timeToMinutes schedule.«end»
      decide (startMinutes ≤ currentMinutes ∧ currentMinutes < endMinutes)

/-! ## Conversation state -/

/-- One transcript entry (`{role, content, state}`; timestamps omitted). -/
structure Turn where
  role : String
  content : String
  state : String
deriving Repr, DecidableEq

/-- Inbound `ConversationState` as produced by `initInboundConversation`
and threaded through `processInboundMessage`. -/
structure ConvState where
  conversationId : String := ""
  currentState : String
  isBusinessHours : Bool
  clinicName : String := "the clinic"
  tone : String := "professional"
  transcript : List Turn := []
  patientIdentified : Bool := false
  patientName : Option String := none
  patientDob : Option String := none
  intent : Option String := none
  flags : List String := []
  confusionCount : Nat := 0
  isComplete : Bool := false
  finalOutcome : Option String := none
  aiResponse : String := ""
deriving Repr, DecidableEq

/-- Outbound `ConversationState` as produced by `initOutboundConversation`
and threaded through `processOutboundMessage`. -/
structure OutConvState where
  conversationId : String := ""
  currentState : String
  clinicName : String := "Northside Medical"
  tone : String := "empathetic"
  followupDate : String
  transcript : List Turn := []
  patientIdentified : Bool := false
  patientName : Option String := none
  flags : List String := []
  isComplete : Bool := false
  escalatedToDoctor : Bool := false
  aiResponse : String := ""
  finalOutcome : Option String := none
deriving Repr, DecidableEq

/-! ## Collaborator oracles

Each turn's collaborator calls are modelled by a record of outcomes.
`gen` is the `response.text` of the (at most one) free-text generation
call the turn makes (`none` = falsy text, which every call site replaces
with its scripted fallback).  The structured-classification fields hold
the JSON object parsed out of the raw chat completion, or `none` when no
JSON could be parsed or the call threw. -/

/-- Parsed result of `_analyzeAppointmentIntent`'s JSON (`parsed` is
returned raw, so `intent` is an arbitrary string). -/
structure ApptIntentJson where
  intent : String
  doctorName : Option String := none
deriving Repr, DecidableEq

/-- Oracle for one inbound turn. -/
structure InAI where
  /-- The `aiService.generateResponse(...).text` for this turn's generation call. -/
  gen : Option String := none
  /-- From `_extractIdentity`: `parsed.name` (before the `|| null` collapse). -/
  identityName : Option String := none
  /-- From `_extractIdentity`: `parsed.dob` (before the `|| null` collapse). -/
  identityDob : Option String := none
  /-- The `_analyzeAppointmentIntent` parsed JSON (`none` = no JSON / error). -/
  apptIntent : Option ApptIntentJson := none
deriving Repr, DecidableEq

/-- Parsed JSON of `_analyzeSideEffects` (fields optional, read with `|| x`). -/
structure SideEffectJson where
  hasSideEffects : Option Bool := none
  severeSideEffects : Option Bool := none
  reportedSymptoms : Option (List String) := none
deriving Repr, DecidableEq

/-- Parsed JSON of `_analyzeAdherence`. -/
structure AdherenceJson where
  goodAdherence : Option Bool := none
  poorAdherence : Option Bool := none
  adherenceDetails : Option String := none
deriving Repr, DecidableEq

/-- Parsed JSON of `_analyzeNonAdherenceReason`. -/
structure ReasonJson where
  reason : Option String := none
  details : Option String := none
deriving Repr, DecidableEq

/-- Oracle for one outbound turn. -/
structure OutAI where
  gen : Option String := none
  identityName : Option String := none
  sideEffectsJson : Option SideEffectJson := none
  adherenceJson : Option AdherenceJson := none
  reasonJson : Option ReasonJson := none
deriving Repr, DecidableEq

/-! ## Outbound analysis wrappers -/

/-- Result record of `_analyzeSideEffects`. -/
structure SideEffectAnalysis where
  hasSideEffects : Bool
  severeSideEffects : Bool
  reportedSymptoms : List String
deriving Repr, DecidableEq

/-- Embeds `CallSimulator._analyzeSideEffects`.  NOTE (faithful to the source):
when the chat completion yields no parseable JSON, or throws, the JS
function falls off the end and returns `undefined` — there is no
fallback `return` (unlike `_analyzeAdherence` below).  That is modelled
as `none`. -/
def _analyzeSideEffects (raw : Option SideEffectJson) : Option SideEffectAnalysis :=
  match raw with
  | some parsed =>
    some { hasSideEffects := parsed.hasSideEffects.getD false
           severeSideEffects := parsed.severeSideEffects.getD false
           reportedSymptoms := parsed.reportedSymptoms.getD [] }
  | none => none

/-- Result record of `_analyzeAdherence`. -/
structure AdherenceAnalysis where
  goodAdherence : Bool
  poorAdherence : Bool
  adherenceDetails : String
deriving Repr, DecidableEq

/-- Embeds `CallSimulator._analyzeAdherence` (has a neutral fallback return). -/
def _analyzeAdherence (raw : Option AdherenceJson) : AdherenceAnalysis :=
  match raw with
  | some parsed =>
    { goodAdherence := parsed.goodAdherence.getD false
      poorAdherence := parsed.poorAdherence.getD false
      adherenceDetails := parsed.adherenceDetails.getD "" }
  | none => { goodAdherence := false, poorAdherence := false, adherenceDetails := "" }

/-- Result record of `_analyzeNonAdherenceReason`. -/
structure ReasonAnalysis where
  reason : String
  details : String
deriving Repr, DecidableEq

/-- Embeds `CallSimulator._analyzeNonAdherenceReason` (falls back to `other`). -/
def _analyzeNonAdherenceReason (raw : Option ReasonJson) : ReasonAnalysis :=
  match raw with
  | some parsed =>
    { reason := parsed.reason.getD "other", details := parsed.details.getD "" }
  | none => { reason := "other", details := "" }

/-! ## Outbound engine (`processOutboundMessage`) -/

/-- Scripted fallbacks of the outbound `generateFollowupResponse` call
sites, used whenever the collaborator text is falsy. -/
def verifyIdentityFallback : String :=
  "Wonderful! Just to make sure I've got the right person, could you confirm your name and date of birth for me?"

def sideEffectsQuestionFallback : String :=
  "Thanks for confirming. Now, have you noticed any side effects since you started taking the Zestril? Some people experience things like feeling lightheaded, dizzy, or a dry cough."

def severeEscalationFallback : String :=
  "I'm quite concerned about what you're describing. These symptoms really need attention from your doctor right away. I'm going to flag this as urgent and have someone from our clinical team call you back within the hour. In the meantime, if you feel worse or have any trouble breathing, please call 000 or head to your nearest emergency department. Is there anything else you'd like to pass on to the doctor?"

def adherenceQuestionFallback : String :=
  "Good to know. Now, have you been able to take the medication as your doctor prescribed - once a day?"

def probeReasonFallback : String :=
  "I understand - it can be tricky to keep up with a new routine. Can you tell me a bit more about what made it difficult? Was it forgetting, side effects bothering you, or something else?"

def closingAfterGoodAdherenceFallback (followupDate : String) : String :=
  "That's wonderful to hear! It sounds like you're managing really well with the medication. I'll pass this along to your care team - they'll check in again around "
    ++ followupDate
    ++ ". Is there anything else you'd like me to let them know, or any questions?"

def closingAfterReasonFallback (followupDate : String) : String :=
  "Thank you for sharing that - it's really helpful to know. I'll make sure to pass this along to your care team so they can support you better. They'll be in touch around "
    ++ followupDate
    ++ ". Is there anything else you'd like me to let them know?"

def escalatedClosingFallback : String :=
  "I've noted all of that down and flagged it as urgent. Our clinical team will be in touch very soon. Please don't hesitate to call 000 or go to emergency if you feel worse. Take care of yourself."

def goodbyeFallback : String :=
  "Thank you so much for taking the time to chat with me today. Take care of yourself, and we'll be in touch soon. Goodbye!"

def finalNoteFallback : String :=
  "Thank you for sharing that - I'll make sure to include it in my notes for the care team. They'll follow up with you soon. Take care, and goodbye!"

def outboundDefaultResponse : String :=
  "Thank you for your time today. Take care, and we'll be in touch soon. Goodbye!"

/-- The inline end-of-call test of the outbound `CLOSING` case: substring
containment (`includes`) of any of six phrases in the lowercased message
— *not* the inbound `_isDone` heuristic. -/
def closingIsDone (patientMessage : String) : Bool :=
  let lowerMessage := lowerStr patientMessage
  sContains lowerMessage "no" ||
  sContains lowerMessage "that's all" ||
  sContains lowerMessage "nothing" ||
  sContains lowerMessage "thank" ||
  sContains lowerMessage "bye" ||
  sContains lowerMessage "good"

/-- The per-branch local variables of `processOutboundMessage` just before
the final return is assembled. -/
structure OutStep where
  nextState : String
  aiResponse : String
  newFlags : List String
  isComplete : Bool
  escalatedToDoctor : Bool
  patientName : Option String
  patientIdentified : Bool
deriving Repr, DecidableEq

/-- The `switch (currentState)` of `processOutboundMessage`.  The
`CHECK_SIDE_EFFECTS` case destructures the result of
`_analyzeSideEffects`; when that result is `undefined` the destructuring
throws a `TypeError`, modelled as `Except.error`. -/
def outboundDispatch (st : OutConvState) (patientMessage : String) (ai : OutAI) :
    Except String OutStep :=
  let flags := st.flags
  let followupDate := st.followupDate
  let base : OutStep :=
    { nextState := st.currentState, aiResponse := "", newFlags := flags
      isComplete := false, escalatedToDoctor := st.escalatedToDoctor
      patientName := st.patientName, patientIdentified := st.patientIdentified }
  if st.currentState = OUTBOUND_STATES.OPENING then
    .ok { base with
      nextState := OUTBOUND_STATES.VERIFY_IDENTITY
      aiResponse := ai.gen.getD verifyIdentityFallback }
  else if st.currentState = OUTBOUND_STATES.VERIFY_IDENTITY then
    let name := jsOrNull ai.identityName
    .ok { base with
      nextState := OUTBOUND_STATES.CHECK_SIDE_EFFECTS
      patientName := if name.isSome then name else st.patientName
      patientIdentified := if name.isSome then true else st.patientIdentified
      aiResponse := ai.gen.getD sideEffectsQuestionFallback }
  else if st.currentState = OUTBOUND_STATES.CHECK_SIDE_EFFECTS then
    match _analyzeSideEffects ai.sideEffectsJson with
    | none =>
      .error "TypeError: cannot destructure _analyzeSideEffects result (undefined)"
    | some analysis =>
      if analysis.severeSideEffects then
        .ok { base with
          newFlags := flags ++ ["URGENT: severe_side_effects"]
          escalatedToDoctor := true
          nextState := OUTBOUND_STATES.ESCALATED
          aiResponse := ai.gen.getD severeEscalationFallback }
      else
        .ok { base with
          newFlags :=
            if analysis.hasSideEffects then flags ++ ["side_effects_reported"]
            else flags
          nextState := OUTBOUND_STATES.CHECK_ADHERENCE
          aiResponse := ai.gen.getD adherenceQuestionFallback }
  else if st.currentState = OUTBOUND_STATES.CHECK_ADHERENCE then
    let analysis := _analyzeAdherence ai.adherenceJson
    if analysis.poorAdherence then
      .ok { base with
        newFlags := flags ++ ["adherence_issue"]
        nextState := OUTBOUND_STATES.PROBE_REASON
        aiResponse := ai.gen.getD probeReasonFallback }
    else
      .ok { base with
        nextState := OUTBOUND_STATES.CLOSING
        aiResponse := ai.gen.getD (closingAfterGoodAdherenceFallback followupDate) }
  else if st.currentState = OUTBOUND_STATES.PROBE_REASON then
    let reasonAnalysis := _analyzeNonAdherenceReason ai.reasonJson
    .ok { base with
      newFlags :=
        flags ++ ["reason: " ++ reasonAnalysis.reason]
          ++ (if reasonAnalysis.details ≠ "" then
                ["reason_details: " ++ reasonAnalysis.details]
              else [])
      nextState := OUTBOUND_STATES.CLOSING
      aiResponse := ai.gen.getD (closingAfterReasonFallback followupDate) }
  else if st.currentState = OUTBOUND_STATES.ESCALATED then
    .ok { base with
      nextState := OUTBOUND_STATES.COMPLETE
      isComplete := true
      aiResponse := ai.gen.getD escalatedClosingFallback }
  else if st.currentState = OUTBOUND_STATES.CLOSING then
    if closingIsDone patientMessage then
      .ok { base with
        nextState := OUTBOUND_STATES.COMPLETE
        isComplete := true
        aiResponse := ai.gen.getD goodbyeFallback }
    else
      .ok { base with
        newFlags := flags ++ ["additional_note: " ++ patientMessage]
        nextState := OUTBOUND_STATES.COMPLETE
        isComplete := true
        aiResponse := ai.gen.getD finalNoteFallback }
  else
    .ok { base with
      isComplete := true
      aiResponse := outboundDefaultResponse }

/-! ## Doctor-name extraction (inbound appointment flow) -/

/-- Case-insensitive literal match at the head of a char list; returns the
remaining characters on success. -/
def matchCI : List Char → List Char → Option (List Char)
  | [], l => some l
  | _ :: _, [] => none
  | p :: ps, c :: cs => if c.toLower = p.toLower then matchCI ps cs else none

def isLowerAZ (c : Char) : Bool := 97 ≤ c.toNat && c.toNat ≤ 122
def isUpperAZ (c : Char) : Bool := 65 ≤ c.toNat && c.toNat ≤ 90

/-- Test for `[a-z]` under the `/i` flag. -/
def isLetterCI (c : Char) : Bool := isLowerAZ c.toLower

/-- Match `\s+([a-z]+)` (with `/i`): at least one whitespace char, then the
greedy non-empty letter capture. -/
def wsThenLetters : List Char → Option (List Char)
  | [] => none
  | c :: t =>
    if isWS c then
      let after := t.dropWhile isWS
      let letters := after.takeWhile isLetterCI
      if letters.isEmpty then none else some letters
    else none

/-- Match `/(?:dr\.?|doctor)\s+([a-z]+)/i` anchored at the head of the
list, returning the capture.  The `dr\.?` alternative is tried first; a
consumed dot that is not followed by whitespace cannot be un-consumed
profitably because `\s+` then fails on the dot itself. -/
def matchDrAt (l : List Char) : Option (List Char) :=
  match matchCI "dr".data l with
  | some rest =>
    match rest with
    | '.' :: t => wsThenLetters t
    | _ => wsThenLetters rest
  | none =>
    match matchCI "doctor".data l with
    | some rest => wsThenLetters rest
    | none => none

/-- Leftmost match of the generic-doctor-mention regex. -/
def findDrCapture : List Char → Option (List Char)
  | [] => none
  | c :: t =>
    match matchDrAt (c :: t) with
    | some cap => some cap
    | none => findDrCapture t

/-- Embeds `CallSimulator._extractDoctorName`: first staff member one of whose
name parts (longer than 2 chars) occurs in the lowercased message,
otherwise the capture of a generic `dr./doctor <name>` mention. -/
def _extractDoctorName (message : String) (clinicConfig : ClinicConfig) :
    Option String :=
  let lowerMessage := lowerStr message
  match clinicConfig.staff_directory.find? (fun clinician =>
      (splitOnChar ' ' (lowerStr clinician.name).data).any fun part =>
        decide (part.length > 2) && listHasInfix part lowerMessage.data) with
  | some clinician => some clinician.name
  | none =>
    match findDrCapture message.data with
    | some cap => some ⟨cap⟩
    | none => none

/-- JS `hay.lastIndexOf(needle)` over char lists (`none` for `-1`). -/
def lastIndexOf (hay needle : List Char) : Option Nat :=
  ((List.range (hay.length + 1)).filter fun i =>
    needle.isPrefixOf (hay.drop i)).getLast?

/-- The staff-name-part mention scan of `_extractDoctorFromHistory`:
for each staff member, each name part longer than 2 chars, and each of
the three panel patterns, record the last occurrence position. -/
def staffMentions (lowerHistory : List Char) (staffDirectory : List Staff) :
    List (Staff × Nat) :=
  staffDirectory.flatMap fun staff =>
    (splitOnChar ' ' (lowerStr staff.name).data).flatMap fun part =>
      if part.length > 2 then
        (["dr. ", "dr ", "doctor "].map fun p => p.data ++ part).filterMap
          fun pattern => (lastIndexOf lowerHistory pattern).map fun i => (staff, i)
      else []

/-- Match `/Dr\.?\s+([A-Z][a-z]+)/` (case-sensitive) at the head of the
list, returning the capture and the total matched length. -/
def matchCapDrAt (l : List Char) : Option (List Char × Nat) :=
  match l with
  | 'D' :: 'r' :: rest =>
    let dotted : List Char × Nat :=
      match rest with
      | '.' :: t => (t, 3)
      | _ => (rest, 2)
    let rest2 := dotted.1
    let ws := rest2.takeWhile isWS
    if ws.isEmpty then none
    else
      match rest2.drop ws.length with
      | u :: rest3 =>
        if isUpperAZ u then
          let lows := rest3.takeWhile isLowerAZ
          if lows.isEmpty then none
          else some (u :: lows, dotted.2 + ws.length + 1 + lows.length)
        else none
      | [] => none
  | _ => none

/-- The `matchAll` of the capitalized doctor regex: successive non-overlapping
matches with their start indices (`fuel` bounds the scan). -/
def findAllCapDr : Nat → List Char → Nat → List (List Char × Nat)
  | 0, _, _ => []
  | _ + 1, [], _ => []
  | fuel + 1, c :: t, i =>
    match matchCapDrAt (c :: t) with
    | some capLen =>
      (capLen.1, i) ::
        findAllCapDr fuel ((c :: t).drop (max capLen.2 1)) (i + max capLen.2 1)
    | none => findAllCapDr fuel t (i + 1)

/-- Embeds `CallSimulator._extractDoctorFromHistory`: collect every staff mention
with its position (name-part patterns over the lowercased history, then
capitalized `Dr. Name` regex matches mapped back to staff), and return
the staff of the *most recent* mention (stable sort descending by
position keeps the earliest-pushed mention on ties). -/
def _extractDoctorFromHistory (conversationHistory : String)
    (staffDirectory : List Staff) : Option Staff :=
  let lowerHistory := (lowerStr conversationHistory).data
  let mentions1 := staffMentions lowerHistory staffDirectory
  let caps :=
    findAllCapDr conversationHistory.data.length conversationHistory.data 0
  let mentions2 := caps.filterMap fun capIdx =>
    match staffDirectory.find? (fun s =>
        listHasInfix (lowerStr ⟨capIdx.1⟩).data (lowerStr s.name).data) with
    | some staff => some (staff, capIdx.2)
    | none => none
  match mentions1 ++ mentions2 with
  | [] => none
  | m :: rest =>
    some (rest.foldl (fun best x => if best.2 < x.2 then x else best) m).1

/-! ## Inbound flow helpers -/

/-- Urgency lexicon of `_handleClinicalFlow`. -/
def urgentKeywords : List String :=
  ["severe", "very bad", "worst", "unbearable", "getting worse", "spreading",
   "high fever", "can't sleep", "worried"]

structure ClinicalResult where
  response : String
  urgent : Bool
deriving Repr, DecidableEq

/-- The generic `_generateResponse` wrapper: the collaborator's text, with
the universal scripted fallback. -/
def _generateResponse (ai : InAI) : String :=
  ai.gen.getD "How can I help you further?"

/-- Embeds `CallSimulator._handleClinicalFlow`.  The clinic config, business-hours
flag and patient name only select the *instruction text* sent to the
generator; the control-flow result is the urgency bit computed from the
urgency lexicon plus the generated (or fallback) response. -/
def _handleClinicalFlow (message : String) (ai : InAI) : ClinicalResult :=
  let lowerMessage := lowerStr message
  let isUrgent := urgentKeywords.any fun keyword => sContains lowerMessage keyword
  { response := _generateResponse ai, urgent := isUrgent }

/-- Embeds `CallSimulator._handleAppointmentFlow`.  Every branch of the source
function only chooses an instruction string and returns
`_generateResponse(...)`; no state, flag or outcome depends on the
branch, so the embedding is the generated-or-fallback text. -/
def _handleAppointmentFlow (ai : InAI) : String :=
  _generateResponse ai

/-- The `anyDoctorPhrases` list of `_continueAppointmentFlow`. -/
def anyDoctorPhrases : List String :=
  ["any doctor", "anyone", "any gp", "whoever", "don't mind", "no preference",
   "any available", "doesn't matter"]

/-- Result object of `_continueAppointmentFlow` (missing JS fields are
`undefined`, i.e. falsy). -/
structure ApptResult where
  response : String
  booked : Bool := false
  noted : Bool := false
  needsTransfer : Bool := false
deriving Repr, DecidableEq

/-- The `transcript.slice(-6)` window formatted as `Heidi:`/`Patient:` lines. -/
def recentHistoryOf (transcript : List Turn) : String :=
  String.intercalate "\n"
    ((transcript.drop (transcript.length - 6)).map fun t =>
      (if t.role = "assistant" then "Heidi: " else "Patient: ") ++ t.content)

/-- Embeds `CallSimulator._continueAppointmentFlow`.  NOTE (faithful to the
source): the `confirming_time` branch checks `requires_manual_approval`
on the doctor recovered from the conversation history, but does **not**
check `isBusinessHours`, so it can return `booked: true` after hours. -/
def _continueAppointmentFlow (message : String) (conversationState : ConvState)
    (clinicConfig : ClinicConfig) (ai : InAI) : ApptResult :=
  let lowerMessage := lowerStr message
  let isBusinessHours := conversationState.isBusinessHours
  let recentHistory := recentHistoryOf conversationState.transcript
  let staffDirectory := clinicConfig.staff_directory
  let genResponse := _generateResponse ai
  let doctorBranch : Option ApptResult :=
    match _extractDoctorName message clinicConfig with
    | none => none
    | some doctorMention =>
      match staffDirectory.find? (fun c =>
          listHasInfix (lowerStr doctorMention).data (lowerStr c.name).data) with
      | some doctor =>
        let bookingRules := doctor.booking_rules.getD {}
        if bookingRules.accepts_new_patients ≠ some true then
          some { response := genResponse, booked := false }
        else if !isBusinessHours then
          some { response := genResponse, booked := false, noted := true }
        else
          some { response := genResponse, booked := false }
      | none => none
  match doctorBranch with
  | some r => r
  | none =>
    let wantsAnyDoctor :=
      anyDoctorPhrases.any fun phrase => sContains lowerMessage phrase
    if wantsAnyDoctor then
      if !isBusinessHours then
        { response := genResponse, booked := false, noted := true }
      else
        { response := genResponse, booked := false }
    else
      let intentAnalysis :=
        match ai.apptIntent with
        | some parsed => parsed
        | none => { intent := "other", doctorName := none }
      if intentAnalysis.intent = "accepting_doctor" then
        { response := genResponse, booked := false }
      else if intentAnalysis.intent = "confirming_time" then
        let doctor := _extractDoctorFromHistory recentHistory staffDirectory
        let bookingRules := (doctor.bind (·.booking_rules)).getD {}
        if bookingRules.requires_manual_approval = some true then
          { response := genResponse, booked := false, noted := true }
        else
          { response := genResponse, booked := true }
      else if sContains lowerMessage "speak to someone" ||
          sContains lowerMessage "talk to" then
        { response := genResponse, needsTransfer := true }
      else
        { response := genResponse, booked := false }

/-- Embeds `CallSimulator.processOutboundMessage`: push the patient turn, run the
state dispatch, push the assistant turn and assemble the next state
(including the recomputed `finalOutcome`). -/
def processOutboundMessage (conversationState : OutConvState)
    (patientMessage : String) (ai : OutAI) : Except String OutConvState :=
  match outboundDispatch conversationState patientMessage ai with
  | .error e => .error e
  | .ok s =>
    .ok { conversationState with
      currentState := s.nextState
      transcript := conversationState.transcript
        ++ [⟨"user", patientMessage, conversationState.currentState⟩,
            ⟨"assistant", s.aiResponse, s.nextState⟩]
      patientIdentified := s.patientIdentified
      patientName := s.patientName
      flags := s.newFlags
      isComplete := s.isComplete
      escalatedToDoctor := s.escalatedToDoctor
      aiResponse := s.aiResponse
      finalOutcome :=
        if s.isComplete then
          some (if s.escalatedToDoctor then "escalated_to_clinician"
                else if s.newFlags.length > 0 then "completed_with_flags"
                else "completed_successfully")
        else none }

/-! ## Inbound engine (`processInboundMessage`) -/

/-- The inbound `switch` default response (terminal / unknown states). -/
def systemErrorResponse : String :=
  "I apologize, I'm having trouble. Let me connect you with our team."

/-- Fallback of `_generateEmergencyResponse`. -/
def emergencyFallback : String :=
  "This sounds like an emergency. Please hang up and call 000 immediately, or go to your nearest emergency department. Your safety is the priority right now."

/-- Business-hours fallback of `_generateTransferResponse`. -/
def transferOpenFallback : String :=
  "Absolutely, I'll transfer you to one of our staff members right now. Please hold for just a moment."

/-- After-hours fallback of `_generateTransferResponse`. -/
def transferClosedFallback : String :=
  "I understand you'd like to speak with someone directly. Unfortunately, our clinic is currently closed for the day. I'll leave an urgent message for our team to call you back first thing when we reopen. Is there anything urgent I can help you with in the meantime?"

/-- Fallback of `_generateConfusionExit`. -/
def confusionExitFallback : String :=
  "I'm so sorry, I'm having trouble understanding. I'll have one of our receptionists call you back at this number shortly. Thank you for your patience. Goodbye."

/-- Fallback of `_generateSuccessExit`. -/
def successExitFallback : String :=
  "I've got all of that noted down. Is there anything else I can help you with? ... Take care, goodbye!"

/-- Fallback of `_generateTriageQuestion`. -/
def triageQuestionFallback (patientName : Option String) : String :=
  "Thank you"
    ++ (match patientName with
        | some n => ", " ++ firstWord n
        | none => "")
    ++ ". How can I help you today?"

def _generateTriageQuestion (ai : InAI) (patientName : Option String) : String :=
  ai.gen.getD (triageQuestionFallback patientName)

/-- The per-branch local variables of `processInboundMessage` just before
the final return is assembled. -/
structure InStep where
  nextState : String
  aiResponse : String
  flags : List String
  confusionCount : Nat
  patientName : Option String
  patientDob : Option String
  intent : Option String
  isComplete : Bool
  finalOutcome : Option String
deriving Repr, DecidableEq

/-- The `switch (currentState)` of `processInboundMessage` (reached only
when neither the emergency nor the transfer override fired).

The `GREETING` case with a recognized intent references the *undefined*
identifier `fallbackResponses` whenever the generated text fails
validation; the resulting `ReferenceError` is raised again inside the
`catch` block and escapes, modelled as `Except.error`. -/
def inboundDispatch (st : ConvState) (patientMessage : String)
    (clinicConfig : ClinicConfig) (ai : InAI) : Except String InStep :=
  let isBusinessHours := st.isBusinessHours
  let base : InStep :=
    { nextState := st.currentState, aiResponse := "", flags := st.flags
      confusionCount := st.confusionCount, patientName := st.patientName
      patientDob := st.patientDob, intent := st.intent, isComplete := false
      finalOutcome := none }
  let genResponse := _generateResponse ai
  if st.currentState = INBOUND_STATES.GREETING then
    let earlyIntent := _classifyIntent patientMessage
    if earlyIntent ≠ "unclear" then
      let lowerResponse := lowerStr genResponse
      let isValidResponse :=
        (sContains lowerResponse "name" || sContains lowerResponse "identity" ||
         sContains lowerResponse "birth" || sContains lowerResponse "dob") &&
        !sContains lowerResponse "this is the" &&
        !sContains lowerResponse "welcome to" &&
        !sContains lowerResponse "thank you for calling" &&
        !sContains lowerResponse "how may i" &&
        !sContains lowerResponse "closed"
      if isValidResponse then
        .ok { base with
          intent := some earlyIntent
          nextState := INBOUND_STATES.IDENTIFY
          aiResponse := genResponse }
      else
        .error "ReferenceError: fallbackResponses is not defined"
    else
      let lowerResponse := lowerStr genResponse
      let isValidResponse :=
        (sContains lowerResponse "name" || sContains lowerResponse "birth" ||
         sContains lowerResponse "dob") &&
        !sContains lowerResponse "this is" && !sContains lowerResponse "welcome"
      .ok { base with
        nextState := INBOUND_STATES.IDENTIFY
        aiResponse :=
          if isValidResponse then genResponse
          else "To get started, could I please have your full name and date of birth?" }
  else if st.currentState = INBOUND_STATES.IDENTIFY then
    let identityName := jsOrNull ai.identityName
    let identityDob := jsOrNull ai.identityDob
    let identifyPhaseIntent := _classifyIntent patientMessage
    if identityName.isSome && identityDob.isSome then
      let withId := { base with patientName := identityName, patientDob := identityDob }
      let triage : InStep :=
        { withId with
          nextState := INBOUND_STATES.TRIAGE
          aiResponse := _generateTriageQuestion ai identityName }
      match st.intent with
      | some intent0 =>
        if intent0 = "unclear" then .ok triage
        else if intent0 = "appointment" then
          .ok { withId with
            nextState := INBOUND_STATES.APPOINTMENT_FLOW
            aiResponse := _handleAppointmentFlow ai }
        else if intent0 = "clinical" then
          -- `conversationState.pendingClinicalMessage` is never assigned
          -- anywhere in the module, so the `|| "health concern"` default
          -- always applies here.
          let clinicalResult := _handleClinicalFlow "health concern" ai
          if clinicalResult.urgent then
            .ok { withId with
              nextState := INBOUND_STATES.TRANSFER_FLOW
              flags := st.flags ++ ["clinical_concern_urgent"]
              aiResponse := clinicalResult.response }
          else
            .ok { withId with
              nextState := INBOUND_STATES.MESSAGE_FLOW
              flags := st.flags ++ ["clinical_concern_logged"]
              aiResponse := clinicalResult.response }
        else if intent0 = "admin" then
          .ok { withId with
            nextState := INBOUND_STATES.MESSAGE_FLOW
            flags := st.flags ++ ["admin_request_logged"]
            aiResponse := genResponse }
        else if intent0 = "transfer" then
          if isBusinessHours then
            .ok { withId with
              nextState := INBOUND_STATES.TRANSFER_FLOW
              flags := st.flags ++ ["transfer_requested"]
              isComplete := true
              finalOutcome := some "live_transfer"
              aiResponse := genResponse }
          else
            .ok { withId with
              nextState := INBOUND_STATES.MESSAGE_FLOW
              aiResponse := genResponse }
        else .ok triage
      | none => .ok triage
    else if identifyPhaseIntent ≠ "unclear" && st.intent.isNone then
      .ok { base with intent := some identifyPhaseIntent, aiResponse := genResponse }
    else if _isRefusal patientMessage then
      .ok { base with
        nextState := INBOUND_STATES.MESSAGE_FLOW
        flags := st.flags ++ ["identity_not_verified"]
        aiResponse := genResponse }
    else
      let newConfusionCount := st.confusionCount + 1
      if newConfusionCount ≥ 3 then
        .ok { base with
          confusionCount := newConfusionCount
          nextState := INBOUND_STATES.CONFUSION_EXIT
          aiResponse := ai.gen.getD confusionExitFallback
          isComplete := true
          finalOutcome := some "confusion_escalation" }
      else
        .ok { base with confusionCount := newConfusionCount, aiResponse := genResponse }
  else if st.currentState = INBOUND_STATES.TRIAGE then
    let detectedIntent := _classifyIntent patientMessage
    let withIntent := { base with intent := some detectedIntent }
    if detectedIntent = "appointment" then
      .ok { withIntent with
        nextState := INBOUND_STATES.APPOINTMENT_FLOW
        aiResponse := _handleAppointmentFlow ai }
    else if detectedIntent = "clinical" then
      let clinicalResult := _handleClinicalFlow patientMessage ai
      if clinicalResult.urgent then
        .ok { withIntent with
          nextState := INBOUND_STATES.TRANSFER_FLOW
          flags := st.flags ++ ["clinical_concern_urgent"]
          aiResponse := clinicalResult.response }
      else
        .ok { withIntent with
          nextState := INBOUND_STATES.MESSAGE_FLOW
          flags := st.flags ++ ["clinical_concern_logged"]
          aiResponse := clinicalResult.response }
    else if detectedIntent = "transfer" then
      if isBusinessHours then
        .ok { withIntent with
          nextState := INBOUND_STATES.TRANSFER_FLOW
          flags := st.flags ++ ["transfer_requested"]
          isComplete := true
          finalOutcome := some "live_transfer"
          aiResponse := genResponse }
      else
        .ok { withIntent with
          nextState := INBOUND_STATES.MESSAGE_FLOW
          aiResponse := genResponse }
    else if detectedIntent = "admin" then
      .ok { withIntent with
        nextState := INBOUND_STATES.MESSAGE_FLOW
        flags := st.flags ++ ["admin_request_logged"]
        aiResponse := genResponse }
    else
      let newConfusionCount := st.confusionCount + 1
      if newConfusionCount ≥ 3 then
        .ok { withIntent with
          confusionCount := newConfusionCount
          nextState := INBOUND_STATES.CONFUSION_EXIT
          aiResponse := ai.gen.getD confusionExitFallback
          isComplete := true
          finalOutcome := some "confusion_escalation" }
      else
        .ok { withIntent with confusionCount := newConfusionCount, aiResponse := genResponse }
  else if st.currentState = INBOUND_STATES.APPOINTMENT_FLOW then
    if _isDone patientMessage then
      if st.flags.contains "appointment_noted" ||
          st.flags.contains "appointment_booked" then
        .ok { base with
          nextState := INBOUND_STATES.SUCCESS_EXIT
          aiResponse := genResponse
          isComplete := true
          finalOutcome :=
            some (if st.flags.contains "appointment_booked" then
                    "appointment_booked"
                  else "appointment_noted") }
      else
        .ok { base with
          nextState := INBOUND_STATES.SUCCESS_EXIT
          aiResponse := ai.gen.getD successExitFallback
          isComplete := true
          finalOutcome := some "call_ended" }
    else
      let appointmentResult :=
        _continueAppointmentFlow patientMessage st clinicConfig ai
      if appointmentResult.booked then
        .ok { base with
          flags := st.flags ++ ["appointment_booked"]
          aiResponse := appointmentResult.response }
      else if appointmentResult.noted then
        .ok { base with
          flags := st.flags ++ ["appointment_noted"]
          aiResponse := appointmentResult.response }
      else if appointmentResult.needsTransfer then
        .ok { base with
          nextState := INBOUND_STATES.TRANSFER_FLOW
          aiResponse := appointmentResult.response }
      else
        .ok { base with aiResponse := appointmentResult.response }
  else if st.currentState = INBOUND_STATES.CLINICAL_FLOW then
    .ok { base with
      nextState := INBOUND_STATES.MESSAGE_FLOW
      aiResponse := genResponse }
  else if st.currentState = INBOUND_STATES.MESSAGE_FLOW then
    if _isDone patientMessage then
      .ok { base with
        nextState := INBOUND_STATES.SUCCESS_EXIT
        aiResponse := ai.gen.getD successExitFallback
        isComplete := true
        finalOutcome := some "message_logged" }
    else
      .ok { base with aiResponse := genResponse }
  else if st.currentState = INBOUND_STATES.TRANSFER_FLOW then
    if isBusinessHours then
      .ok { base with
        aiResponse := genResponse
        isComplete := true
        finalOutcome := some "live_transfer" }
    else
      .ok { base with
        nextState := INBOUND_STATES.MESSAGE_FLOW
        aiResponse := genResponse }
  else
    .ok { base with
      aiResponse := systemErrorResponse
      isComplete := true
      finalOutcome := some "system_error_escalation" }

/-- Embeds `CallSimulator.processInboundMessage`: push the patient turn; run the
always-first emergency scan, then the transfer scan (each of which
terminates the conversation immediately, from any state); otherwise
dispatch on the current state and assemble the next conversation state
(`patientIdentified` is recomputed as `!!patientName`). -/
def processInboundMessage (conversationState : ConvState)
    (patientMessage : String) (clinicConfig : ClinicConfig) (ai : InAI) :
    Except String ConvState :=
  let st := conversationState
  if _detectEmergency patientMessage clinicConfig then
    let aiResponse := ai.gen.getD emergencyFallback
    .ok { st with
      currentState := INBOUND_STATES.EMERGENCY_EXIT
      transcript := st.transcript
        ++ [⟨"user", patientMessage, st.currentState⟩,
            ⟨"assistant", aiResponse, INBOUND_STATES.EMERGENCY_EXIT⟩]
      flags := st.flags ++ ["EMERGENCY_DETECTED"]
      isComplete := true
      finalOutcome := some "emergency_redirect"
      aiResponse := aiResponse }
  else if _detectTransferRequest patientMessage clinicConfig then
    let aiResponse := ai.gen.getD
      (if st.isBusinessHours then transferOpenFallback else transferClosedFallback)
    .ok { st with
      currentState := INBOUND_STATES.TRANSFER_FLOW
      transcript := st.transcript
        ++ [⟨"user", patientMessage, st.currentState⟩,
            ⟨"assistant", aiResponse, INBOUND_STATES.TRANSFER_FLOW⟩]
      flags := st.flags ++ ["TRANSFER_REQUESTED"]
      isComplete := true
      finalOutcome :=
        some (if st.isBusinessHours then "live_transfer" else "message_for_callback")
      aiResponse := aiResponse }
  else
    match inboundDispatch st patientMessage clinicConfig ai with
    | .error e => .error e
    | .ok s =>
      .ok { st with
        currentState := s.nextState
        transcript := st.transcript
          ++ [⟨"user", patientMessage, st.currentState⟩,
              ⟨"assistant", s.aiResponse, s.nextState⟩]
        patientIdentified := s.patientName.isSome
        patientName := s.patientName
        patientDob := s.patientDob
        intent := s.intent
        flags := s.flags
        confusionCount := s.confusionCount
        isComplete := s.isComplete
        finalOutcome := s.finalOutcome
        aiResponse := s.aiResponse }

/-! ## Concrete fixtures used by the witnesses and counterexamples -/

def cfgEmpty : ClinicConfig := {}

def aiEmpty : InAI := {}

def aoEmpty : OutAI := {}

/-- Monday 08:00–18:00, open (the schedule of the spec's scenario). -/
def mondaySchedule : DaySchedule :=
  { is_open := some true, start := "08:00", «end» := "18:00" }

def mondayCfg : ClinicConfig := { schedule := [("monday", mondaySchedule)] }

/-- Same window but with the open flag cleared. -/
def mondayClosedCfg : ClinicConfig :=
  { schedule := [("monday", { mondaySchedule with is_open := some false })] }

/-- A doctor who accepts new patients but requires manual approval. -/
def drSmith : Staff :=
  { name := "Sarah Smith"
    booking_rules := some { accepts_new_patients := some true
                            requires_manual_approval := some true } }

def cfgSmith : ClinicConfig := { staff_directory := [drSmith] }

/-- Mid-conversation `TRIAGE` state during business hours. -/
def stTriage : ConvState :=
  { currentState := INBOUND_STATES.TRIAGE, isBusinessHours := true }

/-- After-hours conversation sitting in `APPOINTMENT_FLOW`; the transcript
mentions no doctor by name. -/
def stApptAfterHours : ConvState :=
  { currentState := INBOUND_STATES.APPOINTMENT_FLOW
    isBusinessHours := false
    transcript :=
      [⟨"assistant", "We can pass your request to the front desk.",
        "appointment_flow"⟩] }

/-- Oracle whose appointment-intent classification says the patient is
confirming a time slot. -/
def aiConfirmTime : InAI := { apptIntent := some { intent := "confirming_time" } }

/-- Outbound conversation waiting for the side-effect answer. -/
def stSideEffects : OutConvState :=
  { currentState := OUTBOUND_STATES.CHECK_SIDE_EFFECTS, followupDate := "March 10" }

/-- Oracle reporting severe side effects. -/
def aoSevere : OutAI := { sideEffectsJson := some { severeSideEffects := some true } }

/-- An `IDENTIFY` state that has already seen two unrecognized inputs. -/
def stIdentifyTwice : ConvState :=
  { currentState := INBOUND_STATES.IDENTIFY, isBusinessHours := true
    confusionCount := 2 }

/-- A finished (terminal, `isComplete`) emergency conversation. -/
def stCompleted : ConvState :=
  { currentState := INBOUND_STATES.EMERGENCY_EXIT, isBusinessHours := true
    isComplete := true, finalOutcome := some "emergency_redirect"
    flags := ["EMERGENCY_DETECTED"]
    transcript := [⟨"assistant", "hello", "greeting"⟩] }

/-- A finished outbound conversation. -/
def stOutCompleted : OutConvState :=
  { currentState := OUTBOUND_STATES.COMPLETE, followupDate := "March 10"
    isComplete := true, finalOutcome := some "completed_successfully" }

/-- Mid-conversation `MESSAGE_FLOW` state. -/
def stMessageFlow : ConvState :=
  { currentState := INBOUND_STATES.MESSAGE_FLOW, isBusinessHours := true }

/-- Outbound `CLOSING` state with one earlier flag. -/
def stClosing : OutConvState :=
  { currentState := OUTBOUND_STATES.CLOSING, followupDate := "March 10"
    flags := ["side_effects_reported"] }

/-- Clinic with configured escalation keywords (which the code lets
*replace* the built-in transfer list). -/
def cfgEscalation : ClinicConfig := { escalation_keywords := ["urgent"] }

/-! ## Theorems -/

/-- C2 (code bug): in the inbound appointment flow, a turn analysed as
`confirming_time` returns `booked: true` — and a later goodbye turn the
`appointment_booked` final outcome — even though `isBusinessHours` is
false, because the `confirming_time` branch of
`_continueAppointmentFlow` never consults `isBusinessHours` (and, with
no doctor recoverable from the history, never consults
`requires_manual_approval` either). -/
theorem afterhours_time_confirmation_is_booked :
    stApptAfterHours.isBusinessHours = false ∧
    ∃ r1 r2,
      processInboundMessage stApptAfterHours "friday at 2pm works for me"
        cfgSmith aiConfirmTime = Except.ok r1 ∧
      "appointment_booked" ∈ r1.flags ∧
      processInboundMessage r1 "no, that's everything" cfgSmith aiEmpty =
        Except.ok r2 ∧
      r2.finalOutcome = some "appointment_booked" ∧
      r2.isComplete = true := by
  refine ⟨rfl, _, _, rfl, ?_, rfl, rfl, rfl⟩
  decide

/-- C3 (code bug): at `CHECK_SIDE_EFFECTS`, when the classification
collaborator returns no parseable JSON, `_analyzeSideEffects` returns
`undefined` (it has no fallback return, unlike its two sibling
analysers) and `processOutboundMessage` throws while destructuring it —
the failure is surfaced to the caller as an error instead of being
recovered. -/
theorem sideEffect_analysis_failure_throws :
    _analyzeSideEffects none = none ∧
    processOutboundMessage stSideEffects "ok" aoEmpty =
      Except.error
        "TypeError: cannot destructure _analyzeSideEffects result (undefined)" :=
  ⟨rfl, rfl⟩

/-- C4 counterexample: a message sent to a completed (terminal,
`isComplete = true`) inbound conversation is neither rejected nor passed
through unchanged — the turn succeeds, the transcript grows by two
entries and the recorded `finalOutcome` is overwritten from
`emergency_redirect` to `system_error_escalation`. -/
theorem completed_state_mutated_cex :
    stCompleted.isComplete = true ∧
    stCompleted.finalOutcome = some "emergency_redirect" ∧
    ∃ r, processInboundMessage stCompleted "hello again" cfgEmpty aiEmpty =
        Except.ok r ∧
      r.transcript.length = stCompleted.transcript.length + 2 ∧
      r.finalOutcome = some "system_error_escalation" := by
  refine ⟨rfl, rfl, _, rfl, rfl, rfl⟩

/-- C5 counterexample: with clinic-configured escalation keywords present
(`["urgent"]`), a message matching the *built-in* transfer phrase
`"real person"` does not trigger transfer detection — the configured
list replaces the built-in list instead of being unioned with it — and
the turn is handled by the current state's ordinary logic. -/
theorem builtin_transfer_phrase_ignored_cex :
    sContains (lowerStr "i want to talk to a real person") "real person" = true ∧
    "real person" ∈ INTENT_CATEGORIES.TRANSFER ∧
    cfgEscalation.escalation_keywords = ["urgent"] ∧
    _detectTransferRequest "i want to talk to a real person" cfgEscalation = false ∧
    ∃ r, processInboundMessage stMessageFlow "i want to talk to a real person"
        cfgEscalation aiEmpty = Except.ok r ∧
      r.currentState = INBOUND_STATES.MESSAGE_FLOW ∧
      ("TRANSFER_REQUESTED" ∈ r.flags → False) ∧
      r.isComplete = false := by
  refine ⟨by decide, by decide, rfl, rfl, _, rfl, rfl, ?_, rfl⟩
  decide

/-- C6 counterexample: the confusion counter is never reset.  From an
`IDENTIFY` state with two earlier unrecognized inputs, a *recognized*
input (a clear appointment intent, which the engine captures) leaves the
counter at 2, and the very next unrecognized input — the first of its
"fresh" run — already terminates the call with `CONFUSION_EXIT`,
contradicting "three consecutive / fresh count after a recognized
input". -/
theorem confusion_not_consecutive_cex :
    stIdentifyTwice.confusionCount = 2 ∧
    ∃ r1 r2,
      processInboundMessage stIdentifyTwice "i want to book an appointment"
        cfgEmpty aiEmpty = Except.ok r1 ∧
      r1.intent = some "appointment" ∧
      r1.currentState = INBOUND_STATES.IDENTIFY ∧
      r1.confusionCount = 2 ∧
      r1.isComplete = false ∧
      processInboundMessage r1 "blah" cfgEmpty aiEmpty = Except.ok r2 ∧
      r2.confusionCount = 3 ∧
      r2.currentState = INBOUND_STATES.CONFUSION_EXIT ∧
      r2.isComplete = true ∧
      r2.finalOutcome = some "confusion_escalation" := by
  refine ⟨rfl, _, _, rfl, rfl, rfl, rfl, rfl, rfl, rfl, rfl, rfl, rfl⟩

/-- C7 counterexample: on the spec's own test message at
`CHECK_SIDE_EFFECTS`, with the analysis marking severity severe, the
engine escalates — but the `followupDate` field is *not* overridden to
an urgency string: it still equals the original follow-up date. -/
theorem followupDate_not_overridden_cex :
    stSideEffects.followupDate = "March 10" ∧
    ∃ r, processOutboundMessage stSideEffects
        "I've been very dizzy and almost fainted" aoSevere = Except.ok r ∧
      r.currentState = OUTBOUND_STATES.ESCALATED ∧
      r.escalatedToDoctor = true ∧
      "URGENT: severe_side_effects" ∈ r.flags ∧
      r.followupDate = "March 10" := by
  refine ⟨rfl, _, rfl, rfl, rfl, ?_, rfl⟩
  decide

/-- C8 counterexample: the outbound `CLOSING` decision does not agree with
the inbound `_isDone` heuristic.  The message "i know i forgot to
mention my cough" is not `_isDone` (no exact or prefix match), yet the
`CLOSING` substring check fires on the "no" inside "know", so the call
completes with the flag list unchanged instead of tagging the remark as
an `additional_note`. -/
theorem closing_substring_vs_isDone_cex :
    _isDone "i know i forgot to mention my cough" = false ∧
    closingIsDone "i know i forgot to mention my cough" = true ∧
    ∃ r, processOutboundMessage stClosing "i know i forgot to mention my cough"
        aoEmpty = Except.ok r ∧
      r.currentState = OUTBOUND_STATES.COMPLETE ∧
      r.isComplete = true ∧
      r.flags = stClosing.flags := by
  refine ⟨by decide, by decide, _, rfl, rfl, rfl, rfl⟩

/-- C1: for every inbound conversation state (any `currentState`, terminal
or not, complete or not) and every patient message containing — as a
case-insensitive substring — a built-in emergency phrase or a
clinic-configured emergency keyword, `processInboundMessage` succeeds
with `currentState = EMERGENCY_EXIT`, `isComplete = true` and the
`EMERGENCY_DETECTED` flag; the scan runs before any state-specific
logic, so the input state is irrelevant. -/
theorem emergency_overrides_every_state
    (st : ConvState) (msg : String) (cfg : ClinicConfig) (ai : InAI)
    (h : ∃ kw ∈ INTENT_CATEGORIES.EMERGENCY ++ cfg.emergency_keywords,
      sContains (lowerStr msg) (lowerStr kw) = true) :
    ∃ r, processInboundMessage st msg cfg ai = Except.ok r ∧
      r.currentState = INBOUND_STATES.EMERGENCY_EXIT ∧
      r.isComplete = true ∧
      "EMERGENCY_DETECTED" ∈ r.flags := by
  have hd : _detectEmergency msg cfg = true := by
    unfold _detectEmergency
    rw [List.any_eq_true]
    simpa using h
  have heq : processInboundMessage st msg cfg ai = Except.ok
      { st with
        currentState := INBOUND_STATES.EMERGENCY_EXIT
        transcript := st.transcript
          ++ [⟨"user", msg, st.currentState⟩,
              ⟨"assistant", ai.gen.getD emergencyFallback,
                INBOUND_STATES.EMERGENCY_EXIT⟩]
        flags := st.flags ++ ["EMERGENCY_DETECTED"]
        isComplete := true
        finalOutcome := some "emergency_redirect"
        aiResponse := ai.gen.getD emergencyFallback } := by
    unfold processInboundMessage
    rw [hd]
    rfl
  exact ⟨_, heq, rfl, rfl, by simp⟩


/-- Witness for C1: from a mid-call `TRIAGE` state, "I have chest pain"
(built-in phrase "chest pain") forces the emergency exit. -/
theorem emergency_overrides_every_state_witness :
    ∃ r, processInboundMessage stTriage "I have chest pain" cfgEmpty aiEmpty =
        Except.ok r ∧
      r.currentState = INBOUND_STATES.EMERGENCY_EXIT ∧
      r.isComplete = true ∧
      "EMERGENCY_DETECTED" ∈ r.flags :=
  emergency_overrides_every_state stTriage "I have chest pain" cfgEmpty aiEmpty
    ⟨"chest pain", by decide, by decide⟩

/-- C9: `_isBusinessHours` looks the day up in the clinic schedule (after
lowercasing), is false whenever the entry is missing or its open flag is
not set, and otherwise compares minutes with inclusive start and
exclusive end. -/
theorem businessHours_window (cfg : ClinicConfig) (day time : String) :
    (∀ s, cfg.schedule.lookup (lowerStr day) = some s → s.is_open = some true →
      _isBusinessHours cfg day time =
        decide (timeToMinutes s.start ≤ timeToMinutes time ∧
                timeToMinutes time < timeToMinutes s.«end»)) ∧
    ((∀ s, cfg.schedule.lookup (lowerStr day) = some s → s.is_open ≠ some true) →
      _isBusinessHours cfg day time = false) := by
  constructor
  · intro s hs hopen
    unfold _isBusinessHours
    rw [hs]
    simp [hopen]
  · intro h
    unfold _isBusinessHours
    cases hl : cfg.schedule.lookup (lowerStr day) with
    | none => rfl
    | some s => simp [h s hl]

/-- Witness for C9: the spec's scenario — Monday open 08:00–18:00 gives
business hours at 10:00 and 08:00 but not at 20:00 or exactly 18:00, and
a cleared open flag gives false. -/
theorem businessHours_window_witness :
    _isBusinessHours mondayCfg "monday" "10:00" = true ∧
    _isBusinessHours mondayCfg "monday" "20:00" = false ∧
    _isBusinessHours mondayCfg "monday" "18:00" = false ∧
    _isBusinessHours mondayCfg "monday" "08:00" = true ∧
    _isBusinessHours mondayClosedCfg "monday" "10:00" = false := by
  refine ⟨?_, ?_, ?_, ?_, ?_⟩
  · exact ((businessHours_window mondayCfg "monday" "10:00").1 mondaySchedule
      (by decide) rfl).trans (by decide)
  · exact ((businessHours_window mondayCfg "monday" "20:00").1 mondaySchedule
      (by decide) rfl).trans (by decide)
  · exact ((businessHours_window mondayCfg "monday" "18:00").1 mondaySchedule
      (by decide) rfl).trans (by decide)
  · exact ((businessHours_window mondayCfg "monday" "08:00").1 mondaySchedule
      (by decide) rfl).trans (by decide)
  · refine (businessHours_window mondayClosedCfg "monday" "10:00").2 ?_
    intro s hs
    have hs' : some ({ mondaySchedule with is_open := some false }) = some s := by
      exact (by decide : mondayClosedCfg.schedule.lookup (lowerStr "monday") =
        some ({ mondaySchedule with is_open := some false })) ▸ hs ▸ rfl
    injection hs' with h2
    rw [← h2]
    decide

/-- C10: `_isDone` counts any message whose lowercased, trimmed text
merely *starts with* the two-letter closing phrase "no" as a completion
signal, so in `MESSAGE_FLOW` such a message (e.g. "Normally I take it at
night") immediately terminates the conversation with outcome
`message_logged` instead of being recorded as message content. -/
theorem no_prefix_terminates_message_flow
    (st : ConvState) (msg : String) (cfg : ClinicConfig) (ai : InAI)
    (hst : st.currentState = INBOUND_STATES.MESSAGE_FLOW)
    (hne : _detectEmergency msg cfg = false)
    (hnt : _detectTransferRequest msg cfg = false)
    (hno : sStartsWith (sTrim (lowerStr msg)) "no" = true) :
    _isDone msg = true ∧
    ∃ r, processInboundMessage st msg cfg ai = Except.ok r ∧
      r.currentState = INBOUND_STATES.SUCCESS_EXIT ∧
      r.isComplete = true ∧
      r.finalOutcome = some "message_logged" := by
  have hdone : _isDone msg = true := by
    unfold _isDone
    simp only [List.any_eq_true]
    exact ⟨"no", by decide, by simp [hno]⟩
  have hdisp : inboundDispatch st msg cfg ai = Except.ok
      { nextState := INBOUND_STATES.SUCCESS_EXIT
        aiResponse := ai.gen.getD successExitFallback
        flags := st.flags
        confusionCount := st.confusionCount
        patientName := st.patientName
        patientDob := st.patientDob
        intent := st.intent
        isComplete := true
        finalOutcome := some "message_logged" } := by
    unfold inboundDispatch
    rw [hst, hdone]
    rfl
  have heq : processInboundMessage st msg cfg ai = Except.ok
      { st with
        currentState := INBOUND_STATES.SUCCESS_EXIT
        transcript := st.transcript
          ++ [⟨"user", msg, st.currentState⟩,
              ⟨"assistant", ai.gen.getD successExitFallback,
                INBOUND_STATES.SUCCESS_EXIT⟩]
        patientIdentified := st.patientName.isSome
        isComplete := true
        finalOutcome := some "message_logged"
        aiResponse := ai.gen.getD successExitFallback } := by
    unfold processInboundMessage
    simp only [hne, hnt, reduceIte]
    rw [hdisp]
    rfl
  exact ⟨hdone, _, heq, rfl, rfl, rfl⟩

/-- Witness for C10: "Normally I take it at night" in `MESSAGE_FLOW` ends
the call as `message_logged`. -/
theorem no_prefix_terminates_message_flow_witness :
    _isDone "Normally I take it at night" = true ∧
    ∃ r, processInboundMessage stMessageFlow "Normally I take it at night"
        cfgEmpty aiEmpty = Except.ok r ∧
      r.currentState = INBOUND_STATES.SUCCESS_EXIT ∧
      r.isComplete = true ∧
      r.finalOutcome = some "message_logged" :=
  no_prefix_terminates_message_flow stMessageFlow "Normally I take it at night"
    cfgEmpty aiEmpty rfl (by decide) (by decide) (by decide)

/-- C7 (amended): at `CHECK_SIDE_EFFECTS`, whenever the side-effect
analysis parses and marks severity severe, the turn moves to
`ESCALATED` with `escalatedToDoctor = true` and the
`URGENT: severe_side_effects` flag — but the `followupDate` field is
left unchanged (no urgency string is written into it; the urgent
callback lives only in the utterance and, at completion, in the
`escalated_to_clinician` outcome). -/
theorem severe_side_effects_escalate
    (st : OutConvState) (msg : String) (ao : OutAI) (j : SideEffectJson)
    (hst : st.currentState = OUTBOUND_STATES.CHECK_SIDE_EFFECTS)
    (hj : ao.sideEffectsJson = some j)
    (hsev : j.severeSideEffects = some true) :
    ∃ r, processOutboundMessage st msg ao = Except.ok r ∧
      r.currentState = OUTBOUND_STATES.ESCALATED ∧
      r.escalatedToDoctor = true ∧
      "URGENT: severe_side_effects" ∈ r.flags ∧
      r.followupDate = st.followupDate ∧
      r.isComplete = false ∧
      r.finalOutcome = none := by
  have hdisp : outboundDispatch st msg ao = Except.ok
      { nextState := OUTBOUND_STATES.ESCALATED
        aiResponse := ao.gen.getD severeEscalationFallback
        newFlags := st.flags ++ ["URGENT: severe_side_effects"]
        isComplete := false
        escalatedToDoctor := true
        patientName := st.patientName
        patientIdentified := st.patientIdentified } := by
    unfold outboundDispatch
    rw [hst, hj]
    simp only [_analyzeSideEffects, hsev]
    rfl
  have heq : processOutboundMessage st msg ao = Except.ok
      { st with
        currentState := OUTBOUND_STATES.ESCALATED
        transcript := st.transcript
          ++ [⟨"user", msg, st.currentState⟩,
              ⟨"assistant", ao.gen.getD severeEscalationFallback,
                OUTBOUND_STATES.ESCALATED⟩]
        flags := st.flags ++ ["URGENT: severe_side_effects"]
        isComplete := false
        escalatedToDoctor := true
        aiResponse := ao.gen.getD severeEscalationFallback
        finalOutcome := none } := by
    unfold processOutboundMessage
    rw [hdisp]
    rfl
  exact ⟨_, heq, rfl, rfl, by simp, rfl, rfl, rfl⟩

/-- Witness for C7 (amended): the spec's test message with a severe
analysis escalates while `followupDate` stays "March 10". -/
theorem severe_side_effects_escalate_witness :
    ∃ r, processOutboundMessage stSideEffects
        "I've been very dizzy and almost fainted" aoSevere = Except.ok r ∧
      r.currentState = OUTBOUND_STATES.ESCALATED ∧
      r.escalatedToDoctor = true ∧
      "URGENT: severe_side_effects" ∈ r.flags ∧
      r.followupDate = stSideEffects.followupDate ∧
      r.isComplete = false ∧
      r.finalOutcome = none :=
  severe_side_effects_escalate stSideEffects
    "I've been very dizzy and almost fainted" aoSevere
    { severeSideEffects := some true } rfl rfl rfl

/-- C8 (amended): the outbound `CLOSING` state always completes the call,
but its end-of-input decision is substring containment of any of
`no` / `that's all` / `nothing` / `thank` / `bye` / `good` in the
lowercased message (`closingIsDone`) — not the inbound `_isDone`
exact-or-prefix heuristic; only when no such substring occurs is the
remark tagged as an `additional_note` flag. -/
theorem closing_completion_by_substring
    (st : OutConvState) (msg : String) (ao : OutAI)
    (hst : st.currentState = OUTBOUND_STATES.CLOSING) :
    ∃ r, processOutboundMessage st msg ao = Except.ok r ∧
      r.currentState = OUTBOUND_STATES.COMPLETE ∧
      r.isComplete = true ∧
      (closingIsDone msg = true → r.flags = st.flags) ∧
      (closingIsDone msg = false →
        r.flags = st.flags ++ ["additional_note: " ++ msg]) := by
  cases hc : closingIsDone msg with
  | true =>
    have hdisp : outboundDispatch st msg ao = Except.ok
        { nextState := OUTBOUND_STATES.COMPLETE
          aiResponse := ao.gen.getD goodbyeFallback
          newFlags := st.flags
          isComplete := true
          escalatedToDoctor := st.escalatedToDoctor
          patientName := st.patientName
          patientIdentified := st.patientIdentified } := by
      unfold outboundDispatch
      rw [hst, hc]
      rfl
    have heq : processOutboundMessage st msg ao = Except.ok
        { st with
          currentState := OUTBOUND_STATES.COMPLETE
          transcript := st.transcript
            ++ [⟨"user", msg, st.currentState⟩,
                ⟨"assistant", ao.gen.getD goodbyeFallback,
                  OUTBOUND_STATES.COMPLETE⟩]
          isComplete := true
          aiResponse := ao.gen.getD goodbyeFallback
          finalOutcome :=
            some (if st.escalatedToDoctor then "escalated_to_clinician"
                  else if st.flags.length > 0 then "completed_with_flags"
                  else "completed_successfully") } := by
      unfold processOutboundMessage
      rw [hdisp]
      rfl
    refine ⟨_, heq, rfl, rfl, fun _ => rfl, fun hq => ?_⟩
    simp [hc] at hq
  | false =>
    have hdisp : outboundDispatch st msg ao = Except.ok
        { nextState := OUTBOUND_STATES.COMPLETE
          aiResponse := ao.gen.getD finalNoteFallback
          newFlags := st.flags ++ ["additional_note: " ++ msg]
          isComplete := true
          escalatedToDoctor := st.escalatedToDoctor
          patientName := st.patientName
          patientIdentified := st.patientIdentified } := by
      unfold outboundDispatch
      rw [hst, hc]
      rfl
    have heq : processOutboundMessage st msg ao = Except.ok
        { st with
          currentState := OUTBOUND_STATES.COMPLETE
          transcript := st.transcript
            ++ [⟨"user", msg, st.currentState⟩,
                ⟨"assistant", ao.gen.getD finalNoteFallback,
                  OUTBOUND_STATES.COMPLETE⟩]
          flags := st.flags ++ ["additional_note: " ++ msg]
          isComplete := true
          aiResponse := ao.gen.getD finalNoteFallback
          finalOutcome :=
            some (if st.escalatedToDoctor then "escalated_to_clinician"
                  else if (st.flags ++ ["additional_note: " ++ msg]).length > 0
                    then "completed_with_flags"
                  else "completed_successfully") } := by
      unfold processOutboundMessage
      rw [hdisp]
      rfl
    refine ⟨_, heq, rfl, rfl, fun hq => ?_, fun _ => rfl⟩
    simp [hc] at hq

/-- Witness for C8 (amended): "that's all" at `CLOSING` completes the call
with the flag list unchanged. -/
theorem closing_completion_by_substring_witness :
    closingIsDone "that's all" = true ∧
    ∃ r, processOutboundMessage stClosing "that's all" aoEmpty = Except.ok r ∧
      r.currentState = OUTBOUND_STATES.COMPLETE ∧
      r.isComplete = true ∧
      r.flags = stClosing.flags := by
  obtain ⟨r, h1, h2, h3, h4, -⟩ :=
    closing_completion_by_substring stClosing "that's all" aoEmpty rfl
  exact ⟨by decide, r, h1, h2, h3, h4 (by decide)⟩

/-- C4 (amended): neither engine rejects or freezes a completed
conversation.  A message to a conversation whose `currentState` is a
terminal inbound exit state is processed by the default branch: the
transcript grows by two entries, `isComplete` is set again, and the
inbound `finalOutcome` is overwritten to `system_error_escalation`
(likewise the outbound `COMPLETE` state re-runs its default branch);
completed state is therefore not immutable, and no client-visible
rejection exists. -/
theorem completed_conversation_still_processed
    (stI : ConvState) (stO : OutConvState) (msg : String) (cfg : ClinicConfig)
    (ai : InAI) (ao : OutAI)
    (hI : stI.currentState = INBOUND_STATES.EMERGENCY_EXIT ∨
          stI.currentState = INBOUND_STATES.SUCCESS_EXIT ∨
          stI.currentState = INBOUND_STATES.CONFUSION_EXIT)
    (hO : stO.currentState = OUTBOUND_STATES.COMPLETE)
    (hne : _detectEmergency msg cfg = false)
    (hnt : _detectTransferRequest msg cfg = false) :
    (∃ r, processInboundMessage stI msg cfg ai = Except.ok r ∧
      r.currentState = stI.currentState ∧
      r.isComplete = true ∧
      r.finalOutcome = some "system_error_escalation" ∧
      r.transcript.length = stI.transcript.length + 2) ∧
    (∃ r, processOutboundMessage stO msg ao = Except.ok r ∧
      r.currentState = OUTBOUND_STATES.COMPLETE ∧
      r.isComplete = true ∧
      r.transcript.length = stO.transcript.length + 2) := by
  constructor
  · have hdisp : inboundDispatch stI msg cfg ai = Except.ok
        { nextState := stI.currentState
          aiResponse := systemErrorResponse
          flags := stI.flags
          confusionCount := stI.confusionCount
          patientName := stI.patientName
          patientDob := stI.patientDob
          intent := stI.intent
          isComplete := true
          finalOutcome := some "system_error_escalation" } := by
      rcases hI with h | h | h <;>
        (unfold inboundDispatch; rw [h]; rfl)
    have heq : processInboundMessage stI msg cfg ai = Except.ok
        { stI with
          transcript := stI.transcript
            ++ [⟨"user", msg, stI.currentState⟩,
                ⟨"assistant", systemErrorResponse, stI.currentState⟩]
          patientIdentified := stI.patientName.isSome
          isComplete := true
          finalOutcome := some "system_error_escalation"
          aiResponse := systemErrorResponse } := by
      unfold processInboundMessage
      simp only [hne, hnt, reduceIte]
      rw [hdisp]
      rfl
    exact ⟨_, heq, rfl, rfl, rfl, by simp⟩
  · have hdisp : outboundDispatch stO msg ao = Except.ok
        { nextState := OUTBOUND_STATES.COMPLETE
          aiResponse := outboundDefaultResponse
          newFlags := stO.flags
          isComplete := true
          escalatedToDoctor := stO.escalatedToDoctor
          patientName := stO.patientName
          patientIdentified := stO.patientIdentified } := by
      unfold outboundDispatch
      rw [hO]
      rfl
    have heq : processOutboundMessage stO msg ao = Except.ok
        { stO with
          currentState := OUTBOUND_STATES.COMPLETE
          transcript := stO.transcript
            ++ [⟨"user", msg, stO.currentState⟩,
                ⟨"assistant", outboundDefaultResponse, OUTBOUND_STATES.COMPLETE⟩]
          isComplete := true
          aiResponse := outboundDefaultResponse
          finalOutcome :=
            some (if stO.escalatedToDoctor then "escalated_to_clinician"
                  else if stO.flags.length > 0 then "completed_with_flags"
                  else "completed_successfully") } := by
      unfold processOutboundMessage
      rw [hdisp]
      rfl
    exact ⟨_, heq, rfl, rfl, by simp⟩

/-- Witness for C4 (amended): a completed emergency conversation and a
completed outbound conversation both get processed again on "hello
again". -/
theorem completed_conversation_still_processed_witness :
    (∃ r, processInboundMessage stCompleted "hello again" cfgEmpty aiEmpty =
        Except.ok r ∧
      r.currentState = stCompleted.currentState ∧
      r.isComplete = true ∧
      r.finalOutcome = some "system_error_escalation" ∧
      r.transcript.length = stCompleted.transcript.length + 2) ∧
    (∃ r, processOutboundMessage stOutCompleted "hello again" aoEmpty =
        Except.ok r ∧
      r.currentState = OUTBOUND_STATES.COMPLETE ∧
      r.isComplete = true ∧
      r.transcript.length = stOutCompleted.transcript.length + 2) :=
  completed_conversation_still_processed stCompleted stOutCompleted
    "hello again" cfgEmpty aiEmpty aoEmpty (Or.inl rfl) rfl
    (by decide) (by decide)

/-- C5 (amended): inbound transfer detection triggers on the built-in
"talk/speak to doctor" pattern list, or on the clinic-configured
escalation keywords when any are configured and otherwise on the
built-in `TRANSFER` phrase list (the configured list *replaces* the
built-in one rather than being unioned with it).  For every non-emergency
message so matched, in every state, the turn ends in `TRANSFER_FLOW`
with the `TRANSFER_REQUESTED` flag, `isComplete = true`, and
`finalOutcome` `live_transfer` exactly when `isBusinessHours` is true
and `message_for_callback` otherwise. -/
theorem transfer_trigger_forces_transfer_flow
    (st : ConvState) (msg : String) (cfg : ClinicConfig) (ai : InAI)
    (hne : _detectEmergency msg cfg = false)
    (h : doctorPatterns.any (fun p => sContains (lowerStr msg) p) = true ∨
      (if cfg.escalation_keywords.length > 0 then cfg.escalation_keywords
       else INTENT_CATEGORIES.TRANSFER).any
        (fun k => sContains (lowerStr msg) (lowerStr k)) = true) :
    ∃ r, processInboundMessage st msg cfg ai = Except.ok r ∧
      r.currentState = INBOUND_STATES.TRANSFER_FLOW ∧
      "TRANSFER_REQUESTED" ∈ r.flags ∧
      r.isComplete = true ∧
      r.finalOutcome = some (if st.isBusinessHours then "live_transfer"
        else "message_for_callback") := by
  have hd : _detectTransferRequest msg cfg = true := by
    unfold _detectTransferRequest
    rcases h with h | h
    · simp [h]
    · simp [h]
  have heq : processInboundMessage st msg cfg ai = Except.ok
      { st with
        currentState := INBOUND_STATES.TRANSFER_FLOW
        transcript := st.transcript
          ++ [⟨"user", msg, st.currentState⟩,
              ⟨"assistant",
                ai.gen.getD (if st.isBusinessHours then transferOpenFallback
                  else transferClosedFallback),
                INBOUND_STATES.TRANSFER_FLOW⟩]
        flags := st.flags ++ ["TRANSFER_REQUESTED"]
        isComplete := true
        finalOutcome := some (if st.isBusinessHours then "live_transfer"
          else "message_for_callback")
        aiResponse := ai.gen.getD (if st.isBusinessHours then transferOpenFallback
          else transferClosedFallback) } := by
    unfold processInboundMessage
    simp only [hne, reduceIte, hd]
    rfl
  exact ⟨_, heq, rfl, by simp, rfl, rfl⟩

/-- Witness for C5 (amended): "i want to speak to someone" (built-in
`TRANSFER` phrase, no configured keywords) from `TRIAGE` during business
hours yields a completed `TRANSFER_FLOW` with outcome `live_transfer`. -/
theorem transfer_trigger_forces_transfer_flow_witness :
    ∃ r, processInboundMessage stTriage "i want to speak to someone" cfgEmpty
        aiEmpty = Except.ok r ∧
      r.currentState = INBOUND_STATES.TRANSFER_FLOW ∧
      "TRANSFER_REQUESTED" ∈ r.flags ∧
      r.isComplete = true ∧
      r.finalOutcome = some (if stTriage.isBusinessHours then "live_transfer"
        else "message_for_callback") :=
  transfer_trigger_forces_transfer_flow stTriage "i want to speak to someone"
    cfgEmpty aiEmpty (by decide) (Or.inr (by decide))

/-- C6 (amended): `confusionCount` increments on an unrecognized input in
`IDENTIFY` or `TRIAGE`, and the turn ends in the terminal
`CONFUSION_EXIT` with outcome `confusion_escalation` exactly when the
incremented counter reaches 3.  The counter is *never reset* by a
recognized input, so it is the third unrecognized input of the whole
conversation — consecutive or not — that terminates (never the second;
a fourth cannot occur because the third already ends the call). -/
theorem third_unrecognized_input_confusion_exit
    (st : ConvState) (msg : String) (cfg : ClinicConfig) (ai : InAI)
    (hne : _detectEmergency msg cfg = false)
    (hnt : _detectTransferRequest msg cfg = false)
    (hb : (st.currentState = INBOUND_STATES.IDENTIFY ∧
            ((jsOrNull ai.identityName).isSome &&
              (jsOrNull ai.identityDob).isSome) = false ∧
            (decide (_classifyIntent msg ≠ "unclear") && st.intent.isNone) = false ∧
            _isRefusal msg = false) ∨
          (st.currentState = INBOUND_STATES.TRIAGE ∧
            _classifyIntent msg = "unclear")) :
    ∃ r, processInboundMessage st msg cfg ai = Except.ok r ∧
      r.confusionCount = st.confusionCount + 1 ∧
      (r.currentState = INBOUND_STATES.CONFUSION_EXIT ↔
        3 ≤ st.confusionCount + 1) ∧
      (3 ≤ st.confusionCount + 1 →
        r.isComplete = true ∧ r.finalOutcome = some "confusion_escalation") ∧
      (st.confusionCount + 1 < 3 →
        r.currentState = st.currentState ∧ r.isComplete = false ∧
        r.finalOutcome = none) := by
  by_cases hc : 3 ≤ st.confusionCount + 1
  · have hdisp : inboundDispatch st msg cfg ai = Except.ok
        { nextState := INBOUND_STATES.CONFUSION_EXIT
          aiResponse := ai.gen.getD confusionExitFallback
          flags := st.flags
          confusionCount := st.confusionCount + 1
          patientName := st.patientName
          patientDob := st.patientDob
          intent := if st.currentState = INBOUND_STATES.TRIAGE
            then some "unclear" else st.intent
          isComplete := true
          finalOutcome := some "confusion_escalation" } := by
      rcases hb with ⟨hs, h1, h2, h3⟩ | ⟨hs, hcls⟩
      · unfold inboundDispatch
        rw [hs]
        simp only [h1, h2, h3, reduceIte, Bool.false_eq_true, if_false]
        simp only [hc, ge_iff_le, if_true, reduceIte]
        rfl
      · unfold inboundDispatch
        rw [hs, hcls]
        simp only [hc, ge_iff_le, if_true, reduceIte]
        rfl
    have heq : processInboundMessage st msg cfg ai = Except.ok
        { st with
          currentState := INBOUND_STATES.CONFUSION_EXIT
          transcript := st.transcript
            ++ [⟨"user", msg, st.currentState⟩,
                ⟨"assistant", ai.gen.getD confusionExitFallback,
                  INBOUND_STATES.CONFUSION_EXIT⟩]
          patientIdentified := st.patientName.isSome
          intent := if st.currentState = INBOUND_STATES.TRIAGE
            then some "unclear" else st.intent
          confusionCount := st.confusionCount + 1
          isComplete := true
          finalOutcome := some "confusion_escalation"
          aiResponse := ai.gen.getD confusionExitFallback } := by
      unfold processInboundMessage
      simp only [hne, hnt, reduceIte]
      rw [hdisp]
      rfl
    exact ⟨_, heq, rfl, ⟨fun _ => hc, fun _ => rfl⟩, fun _ => ⟨rfl, rfl⟩,
      fun hlt => absurd hc (by omega)⟩
  · have hdisp : inboundDispatch st msg cfg ai = Except.ok
        { nextState := st.currentState
          aiResponse := _generateResponse ai
          flags := st.flags
          confusionCount := st.confusionCount + 1
          patientName := st.patientName
          patientDob := st.patientDob
          intent := if st.currentState = INBOUND_STATES.TRIAGE
            then some "unclear" else st.intent
          isComplete := false
          finalOutcome := none } := by
      rcases hb with ⟨hs, h1, h2, h3⟩ | ⟨hs, hcls⟩
      · unfold inboundDispatch
        rw [hs]
        simp only [h1, h2, h3, reduceIte, Bool.false_eq_true, if_false]
        simp only [hc, ge_iff_le, if_false, reduceIte]
        rfl
      · unfold inboundDispatch
        rw [hs, hcls]
        simp only [hc, ge_iff_le, if_false, reduceIte]
        rfl
    have heq : processInboundMessage st msg cfg ai = Except.ok
        { st with
          transcript := st.transcript
            ++ [⟨"user", msg, st.currentState⟩,
                ⟨"assistant", _generateResponse ai, st.currentState⟩]
          patientIdentified := st.patientName.isSome
          intent := if st.currentState = INBOUND_STATES.TRIAGE
            then some "unclear" else st.intent
          confusionCount := st.confusionCount + 1
          isComplete := false
          finalOutcome := none
          aiResponse := _generateResponse ai } := by
      unfold processInboundMessage
      simp only [hne, hnt, reduceIte]
      rw [hdisp]
      rfl
    have hns : st.currentState ≠ INBOUND_STATES.CONFUSION_EXIT := by
      rcases hb with ⟨hs, -⟩ | ⟨hs, -⟩ <;> rw [hs] <;> decide
    exact ⟨_, heq, rfl, ⟨fun hq => absurd hq hns, fun hq => absurd hq hc⟩,
      fun hq => absurd hq hc, fun _ => ⟨rfl, rfl, rfl⟩⟩

/-- Witness for C6 (amended): a third unrecognized input ("blah", which
is neither identity, intent nor refusal) in `IDENTIFY` after two earlier
ones terminates the call with `confusion_escalation`. -/
theorem third_unrecognized_input_confusion_exit_witness :
    ∃ r, processInboundMessage stIdentifyTwice "blah" cfgEmpty aiEmpty =
        Except.ok r ∧
      r.confusionCount = stIdentifyTwice.confusionCount + 1 ∧
      (r.currentState = INBOUND_STATES.CONFUSION_EXIT ↔
        3 ≤ stIdentifyTwice.confusionCount + 1) ∧
      (3 ≤ stIdentifyTwice.confusionCount + 1 →
        r.isComplete = true ∧ r.finalOutcome = some "confusion_escalation") ∧
      (stIdentifyTwice.confusionCount + 1 < 3 →
        r.currentState = stIdentifyTwice.currentState ∧ r.isComplete = false ∧
        r.finalOutcome = none) :=
  third_unrecognized_input_confusion_exit stIdentifyTwice "blah" cfgEmpty
    aiEmpty (by decide) (by decide)
    (Or.inl ⟨rfl, by decide, by decide, by decide⟩)

end Heidi
